import Mathlib

/-!
Verification of the Stitch orchestration backend (`src/backend/server.js`,
the variant using the external code-generation service `genCode` together
with the `interaction_id` continuation token).

Strings are modelled as `List Char`; JavaScript truthiness of strings and
`a || b` defaulting are modelled explicitly.
-/

/-- Strings of the embedded program, modelled as lists of characters. -/
abbrev Str := List Char

/-- Coercion from a Lean string literal to the embedded string type. -/
def str (s : String) : Str := s.toList

/-- JS truthiness of a possibly-undefined string: `undefined` and the empty
string are falsy, every other string is truthy. -/
def jsTruthyStr : Option Str → Bool
  | none => false
  | some s => !s.isEmpty

/-- JS `a || b` where `a` is a possibly-undefined string and `b` a string. -/
def jsOrStr (a : Option Str) (b : Str) : Str :=
  match a with
  | some s => if s.isEmpty then b else s
  | none => b

/-- JS `a || b` where both operands are possibly-undefined strings. -/
def jsOrOpt (a b : Option Str) : Option Str :=
  match a with
  | some s => if s.isEmpty then b else some s
  | none => b

/-- The character class matched by the JS regex `\s` (whitespace), also used
by `String.prototype.trim`. -/
def isJsSpace (c : Char) : Bool :=
  c = ' ' || c = '\t' || c = '\n' || c = '\r' ||
  c.toNat = 0x0b || c.toNat = 0x0c || c.toNat = 0xa0 || c.toNat = 0x1680 ||
  (0x2000 ≤ c.toNat && c.toNat ≤ 0x200a) ||
  c.toNat = 0x2028 || c.toNat = 0x2029 || c.toNat = 0x202f ||
  c.toNat = 0x205f || c.toNat = 0x3000 || c.toNat = 0xfeff

/-- JS `String.prototype.trim`: strip leading and trailing whitespace. -/
def jsTrim (s : Str) : Str :=
  ((s.dropWhile isJsSpace).reverse.dropWhile isJsSpace).reverse

/-- If the first list is a prefix of the second, return the remainder. -/
def stripPrefixList : Str → Str → Option Str
  | [], rest => some rest
  | _ :: _, [] => none
  | p :: ps, c :: cs => if p = c then stripPrefixList ps cs else none

/-- Characters admitted by the capture group `[^\s"']+` of the project-id
regex: anything but whitespace, double quote (34) and single quote (39). -/
def idCapChar (c : Char) : Bool :=
  !(isJsSpace c || c.toNat = 34 || c.toNat = 39)

/-- The JS regex match `text.match(/projects\/([^\s"']+)/)`: scan left to
right; at each position try to read the literal `projects/` followed by a
non-empty run of capture characters; on failure resume at the next
position.  Returns the first capture, or `none`. -/
def matchProjectsId : Str → Option Str
  | [] => none
  | c :: rest =>
    match stripPrefixList (str "projects/") (c :: rest) with
    | some rem =>
      let cap := rem.takeWhile idCapChar
      if cap.isEmpty then matchProjectsId rest else some cap
    | none => matchProjectsId rest

/-- Boolean test that the first list occurs at the head of the second. -/
def headMatches : Str → Str → Bool
  | [], _ => true
  | _ :: _, [] => false
  | p :: ps, c :: cs => p = c && headMatches ps cs

/-- JS `hay.includes(needle)`: the needle occurs contiguously in the hay. -/
def containsSub (needle : Str) : Str → Bool
  | [] => needle.isEmpty
  | c :: rest => headMatches needle (c :: rest) || containsSub needle rest

/-- JS property access `value[key]` where `value` holds a string and `key`
is one of the non-numeric property names the source uses (`status`,
`results`, `interaction_id`): the access yields `undefined`.  The source
reads `genCodeResult["status"]` etc. where `genCodeResult` is the raw
response text returned by `genCode` (`response.text()`, a string), so
these accesses always yield `undefined`. -/
def jsStringProp (_s : Str) (_key : Str) : Option Str := none

/-- A log line as produced by `addLog`: `[source] text`. -/
def logEntry (source text : Str) : Str :=
  str "[" ++ source ++ str "] " ++ text

/-- The guard `!interaction_id || interaction_id.trim() === ''` deciding
that no usable continuation token was supplied. -/
def blankIid (iid : Option Str) : Bool :=
  match iid with
  | none => true
  | some s => s.isEmpty || (jsTrim s).isEmpty

/-- Decimal rendering of a natural number, as JS template interpolation of
a number. -/
def natStr (n : Nat) : Str := (toString n).toList

/-- One item of the `content` array of an MCP tool result. -/
structure ContentItem where
  text : Str
deriving DecidableEq

/-- The `result` object of a successful MCP JSON-RPC response. -/
structure McpResult where
  isError : Bool
  content : List ContentItem
  structuredContent : Str
deriving DecidableEq

/-- The argument objects passed to the two MCP tools used by the flow. -/
inductive McpArgs where
  | createProject (title : Str)
  | generateScreen (projectId : Option Str) (prompt : Str)
      (deviceType : Str) (modelId : Str)
deriving DecidableEq

/-- The value of the flow-local `structuredContent` variable: the initial
empty object literal, or whatever the generation tool returned. -/
inductive SContent where
  | emptyObj
  | fromGen (v : Str)
deriving DecidableEq

/-- The payload posted by `genCode` to the external code-generation
service. -/
structure GenPayload where
  prompt : Str
  structuredContent : SContent
  previous_interaction_id : Option Str
deriving DecidableEq

/-- An outbound call made during one flow invocation: an MCP tool call
(with the credential it carried), or a `genCode` service call. -/
inductive CallRecord where
  | mcp (toolName : Str) (args : McpArgs) (token : Str)
  | gen (payload : GenPayload)
deriving DecidableEq

/-- Process-wide configuration and ambient values read by the flow:
`STITCH_PROJECT_ID`, the `toLocaleTimeString` value used in the created
project title, and `Date.now()` used as `version`. -/
structure FlowConfig where
  defaultProjectId : Option Str
  timeStr : Str
  now : Nat
deriving DecidableEq

/-- The external collaborators: the MCP tool endpoint (as observed through
`callStitchToolDirect`, returning a result or throwing a message) and the
code-generation service (as observed through `genCode`, returning the raw
response text or throwing). -/
structure Services where
  mcp : Str → McpArgs → Str → Except Str McpResult
  genSvc : GenPayload → Except Str Str

/-- The object returned by `runStitchAgentFlow`.  The success object has
keys `success, logs, code, version, notation, interaction_id`; the failure
object has keys `success, logs, error`.  `noteText` models the field named
`notation` in the source. -/
structure FlowResult where
  success : Bool
  logs : List Str
  code : Option Str
  version : Option Nat
  noteText : Option Str
  interaction_id : Option Str
  error : Option Str
deriving DecidableEq

/-- A flow outcome together with the trace of outbound calls it made. -/
structure FlowOut where
  result : FlowResult
  calls : List CallRecord
deriving DecidableEq

/-- The `catch` block of `runStitchAgentFlow`: append an `Error` log entry
with the failure message and return `success:false` with that message. -/
def flowFail (logs : List Str) (calls : List CallRecord) (msg : Str) : FlowOut :=
  ⟨⟨false, logs ++ [logEntry (str "Error") msg], none, none, none, none, some msg⟩, calls⟩

/-- The success return of `runStitchAgentFlow`: `new_interaction_id ||
interaction_id` picks the new id when non-empty, else the inbound one. -/
def flowOk (logs : List Str) (calls : List CallRecord) (finalCode noteV newIid : Str)
    (now : Nat) (interaction_id : Option Str) : FlowOut :=
  ⟨⟨true, logs, some finalCode, some now, some noteV,
    (if newIid.isEmpty then interaction_id else some newIid), none⟩, calls⟩

/-- The placeholder fragment synthesized when the returned content is not
recognizable HTML (source lines building `finalCode` in the else branch). -/
def stitchPlaceholder (safeProjectId : Str) : Str :=
  str "<!-- Stitch Preview -->\n<div class=\"p-12 text-center bg-gray-50 border-2 border-dashed rounded-xl\">\n  <h2 class=\"text-xl font-bold mb-2\">Stitch 设计已完成</h2>\n  <p class=\"text-gray-600\">项目: " ++
  safeProjectId ++
  str "</p>\n  <p class=\"mt-4 text-sm text-blue-600 underline\">请在控制台查看或手动导出代码</p>\n</div>"

/-- The Result Extractor step of the flow (source: the `if (htmlCode &&
htmlCode.includes("<html"))` branch of Step 3): return the HTML verbatim
when it carries the markup root, otherwise the placeholder embedding
`currentProjectId || "Unknown Project"`. -/
def extractCodeFragment (htmlCode : Option Str) (currentProjectId : Option Str) : Str :=
  match htmlCode with
  | some h =>
    if containsSub (str "<html") h then h
    else stitchPlaceholder (jsOrStr currentProjectId (str "Unknown Project"))
  | none => stitchPlaceholder (jsOrStr currentProjectId (str "Unknown Project"))

/-- The tail of the flow shared by both branch arms: call `genCode` with
the prompt, the current `structuredContent` and the inbound
`interaction_id`, then run Step 3 over the returned text.  Because the
returned value is the raw response string, `genCodeResult["status"]` is
`undefined` (`jsStringProp`), so the `"completed"` branch cannot be taken
and `finalCode` stays empty. -/
def runCodeGen (cfg : FlowConfig) (svc : Services) (userQuery : Str)
    (interaction_id : Option Str) (logs : List Str) (calls : List CallRecord)
    (sc : SContent) : FlowOut :=
  let payload : GenPayload := ⟨userQuery, sc, interaction_id⟩
  let calls2 := calls ++ [CallRecord.gen payload]
  match svc.genSvc payload with
  | Except.error e => flowFail logs calls2 e
  | Except.ok genCodeText =>
    match jsStringProp genCodeText (str "status") with
    | some st =>
      if st = str "completed" then
        flowFail (logs ++ [logEntry (str "Stitch") (str "正在导出 HTML 源代码...")]) calls2
          (str "Cannot read properties of undefined (reading \x27htmlCode\x27)")
      else
        flowOk (logs ++ [logEntry (str "Stitch") (str "代码生成状态: " ++ st)]) calls2
          [] [] [] cfg.now interaction_id
    | none =>
      flowOk (logs ++ [logEntry (str "Stitch") (str "代码生成状态: undefined")]) calls2
        [] [] [] cfg.now interaction_id

/-- Step 2 of the flow: invoke `generate_screen_from_text` with the
resolved project id and fixed generation parameters, then continue with
the code-generation tail. -/
def runGenerateStep (cfg : FlowConfig) (svc : Services) (userQuery token : Str)
    (interaction_id : Option Str) (logs : List Str) (calls : List CallRecord)
    (currentProjectId : Option Str) : FlowOut :=
  let logs2 := logs ++ [logEntry (str "Stitch") (str "发送设计需求至 Gemini 3 Flash...")]
  let gargs := McpArgs.generateScreen currentProjectId userQuery (str "MOBILE") (str "GEMINI_3_FLASH")
  let calls2 := calls ++ [CallRecord.mcp (str "generate_screen_from_text") gargs token]
  match svc.mcp (str "generate_screen_from_text") gargs token with
  | Except.error e => flowFail logs2 calls2 e
  | Except.ok genResult =>
    runCodeGen cfg svc userQuery interaction_id logs2 calls2
      (SContent.fromGen genResult.structuredContent)

/-- The core flow `runStitchAgentFlow(userQuery, token, interaction_id)`.
When no usable continuation token is supplied: log the task, resolve the
project id (reuse the configured default when truthy, otherwise create a
project and parse `projects/<id>` out of the response text, failing when
absent), then generate the screen; in all cases finish with the
code-generation tail.  Every failure is caught by `flowFail`. -/
def runStitchAgentFlow (cfg : FlowConfig) (svc : Services)
    (userQuery : Str) (token : Str) (interaction_id : Option Str) : FlowOut :=
  if blankIid interaction_id then
    let logs0 := [logEntry (str "System") (str "接收设计任务: " ++ userQuery)]
    if jsTruthyStr cfg.defaultProjectId then
      runGenerateStep cfg svc userQuery token interaction_id logs0 [] cfg.defaultProjectId
    else
      let logs1 := logs0 ++ [logEntry (str "Stitch") (str "未检测到项目ID，正在尝试创建新项目...")]
      let cargs := McpArgs.createProject (str "AI Gen - " ++ cfg.timeStr)
      let calls1 := [CallRecord.mcp (str "create_project") cargs token]
      match svc.mcp (str "create_project") cargs token with
      | Except.error e => flowFail logs1 calls1 e
      | Except.ok projectResult =>
        match projectResult.content.head? with
        | none =>
          flowFail logs1 calls1 (str "Cannot read properties of undefined (reading \x27text\x27)")
        | some item =>
          match matchProjectsId item.text with
          | none => flowFail logs1 calls1 (str "项目创建失败或无法解析 ID")
          | some pid =>
            runGenerateStep cfg svc userQuery token interaction_id
              (logs1 ++ [logEntry (str "Stitch") (str "项目就绪: " ++ pid)]) calls1 (some pid)
  else
    runCodeGen cfg svc userQuery interaction_id [] [] SContent.emptyObj

/-- An upstream JSON-RPC error object: its `message` field (possibly
absent) and its `JSON.stringify` rendering used as fallback. -/
structure McpError where
  message : Option Str
  stringified : Str
deriving DecidableEq

/-- The parsed JSON-RPC response envelope: optional top-level `error`
object and optional `result`. -/
structure McpEnvelope where
  error : Option McpError
  result : Option McpResult
deriving DecidableEq

/-- What the transport produced for the single `fetch`: a network failure,
or an HTTP response with status, body text and the result of
`JSON.parse(bodyText)` (performed by the JS runtime; `none` when the body
is not parsable JSON). -/
inductive TransportOutcome where
  | netError (msg : Str)
  | response (status : Nat) (bodyText : Str) (parsed : Option McpEnvelope)
deriving DecidableEq

/-- The JSON-RPC 2.0 request envelope built by `callStitchToolDirect`. -/
structure RpcRequest where
  id : Nat
  method : Str
  toolName : Str
  args : McpArgs
  token : Str
deriving DecidableEq

/-- One run of `callStitchToolDirect`: the outbound requests it issued and
its outcome (returned `data.result`, possibly `undefined`, or a thrown
message). -/
structure InvokeRun where
  requests : List RpcRequest
  result : Except Str (Option McpResult)

/-- JS `response.ok`: status in the range 200-299. -/
def responseOk (status : Nat) : Bool := 200 ≤ status && status ≤ 299

/-- The tool invoker `callStitchToolDirect(toolName, args, token)`: build
one JSON-RPC envelope, issue one request, and classify the outcome: 401 →
authentication failure message; other non-2xx → HTTP error with the body;
unparsable body → JSON parse failure message; top-level `error` object →
MCP logic error with its message; `result.isError` → tool error with the
first content text; otherwise return `data.result`. -/
def callStitchToolDirect (toolName : Str) (args : McpArgs) (token : Str) (reqId : Nat)
    (outcome : TransportOutcome) : InvokeRun :=
  let req : RpcRequest := ⟨reqId, str "tools/call", toolName, args, token⟩
  match outcome with
  | TransportOutcome.netError m => ⟨[req], Except.error m⟩
  | TransportOutcome.response status body parsed =>
    if responseOk status = false then
      if status = 401 then
        ⟨[req], Except.error (str "身份验证失败 (401): 请检查您的 Stitch Access Token 是否正确或已过期。原文: " ++ body)⟩
      else
        ⟨[req], Except.error (str "HTTP Error " ++ natStr status ++ str ": " ++ body)⟩
    else
      match parsed with
      | none => ⟨[req], Except.error (str "无法解析响应 JSON: " ++ body)⟩
      | some data =>
        match data.error with
        | some e =>
          ⟨[req], Except.error (str "MCP 逻辑错误: " ++ jsOrStr e.message e.stringified)⟩
        | none =>
          match data.result with
          | some r =>
            if r.isError then
              ⟨[req], Except.error (str "工具执行返回错误: " ++
                jsOrStr (Option.map ContentItem.text r.content.head?) (str "未知错误"))⟩
            else ⟨[req], Except.ok (some r)⟩
          | none => ⟨[req], Except.ok none⟩

/-- The `config` object of the inbound request body. -/
structure ReqConfig where
  deepSeekKey : Option Str
deriving DecidableEq

/-- The inbound body of `POST /api/generate`. -/
structure GenerateRequest where
  prompt : Option Str
  config : Option ReqConfig
  interaction_id : Option Str
deriving DecidableEq

/-- What the request handler decides to do: reject with HTTP 401 and an
error message, or invoke `runStitchAgentFlow` with the resolved token. -/
inductive HandlerAction where
  | reject401 (errorMsg : Str)
  | invokeFlow (prompt : Option Str) (token : Str) (interaction_id : Option Str)
deriving DecidableEq

/-- The 401 error message of the handler. -/
def credMissingMsg : Str :=
  str "未提供验证凭据。请在前端设置中的 \"DeepSeek Key\" 处填入您的 Stitch OAuth Access Token。"

/-- The route handler of `POST /api/generate`: resolve the credential as
`config?.deepSeekKey || STITCH_ACCESS_TOKEN`; reject with 401 when the
result is undefined or blank; otherwise invoke the flow with the resolved
token, the prompt and the inbound `interaction_id`. -/
def handleGenerate (envToken : Option Str) (req : GenerateRequest) : HandlerAction :=
  match jsOrOpt (req.config.bind ReqConfig.deepSeekKey) envToken with
  | none => HandlerAction.reject401 credMissingMsg
  | some t =>
    if (jsTrim t).isEmpty then HandlerAction.reject401 credMissingMsg
    else HandlerAction.invokeFlow req.prompt t req.interaction_id

def cfgC7 : FlowConfig := ⟨some (str "p1"), str "09:00:00", 7⟩

def svcC7 : Services :=
  ⟨fun _ _ _ => Except.ok ⟨false, [⟨str "ok"⟩], str "sc-content"⟩,
   fun _ => Except.ok (str "service-text")⟩

def cfgC1 : FlowConfig := ⟨some (str "p-1"), str "12:00:00", 1730000000000⟩

def svcC1 : Services :=
  ⟨fun _ _ _ => Except.ok ⟨false, [⟨str "projects/abc123"⟩], str "design-content"⟩,
   fun _ => Except.ok (str "\x7b\"status\": \"completed\", \"results\": \x7b\"htmlCode\": \"<html><body>todo</body></html>\", \"notation\": \"\"\x7d, \"interaction_id\": \"i-1\"\x7d")⟩

def cfgC6 : FlowConfig := ⟨some (str "p-6"), str "13:00:00", 42⟩

def svcC6 : Services :=
  ⟨fun _ _ _ => Except.ok ⟨false, [⟨str "ok"⟩], str "sc6"⟩,
   fun _ => Except.ok (str "\x7b\"status\": \"completed\", \"results\": \x7b\"htmlCode\": \"plain text, no markup root\"\x7d\x7d")⟩

def cfgC2 : FlowConfig := ⟨none, str "10:00:00", 5⟩

def svcC2 : Services :=
  ⟨fun _ _ _ => Except.ok ⟨false, [⟨str "created without identifier"⟩], str "sc"⟩,
   fun _ => Except.ok (str "resp")⟩

def cfgC3 : FlowConfig := ⟨none, str "11:00:00", 3⟩

def svcC3 : Services :=
  ⟨fun _ _ _ => Except.error (str "connect ECONNREFUSED"),
   fun _ => Except.error (str "connect ECONNREFUSED")⟩

def reqWithKey : GenerateRequest := ⟨some (str "hi"), some ⟨some (str "req-token")⟩, none⟩

def reqNoKey : GenerateRequest := ⟨some (str "hi"), none, none⟩

def cfgC5 : FlowConfig := ⟨some (str "proj-77"), str "14:00:00", 9⟩

def svcC5 : Services :=
  ⟨fun _ _ _ => Except.ok ⟨false, [⟨str "ok"⟩], str "sc5"⟩,
   fun _ => Except.ok (str "service-text")⟩

def oc401 : TransportOutcome := TransportOutcome.response 401 (str "denied") none

def oc500 : TransportOutcome := TransportOutcome.response 500 (str "oops") none

def ocBad : TransportOutcome := TransportOutcome.response 200 (str "not json") none

def ocErr : TransportOutcome :=
  TransportOutcome.response 200 (str "b") (some ⟨some ⟨some (str "bad creds"), str "sjson"⟩, none⟩)

def ocTool : TransportOutcome :=
  TransportOutcome.response 200 (str "b2") (some ⟨none, some ⟨true, [⟨str "tool failed"⟩], str "sc"⟩⟩)

def cpArgs : McpArgs := McpArgs.createProject (str "T")

theorem flowFail_error (l : List Str) (c : List CallRecord) (m : Str) :
    (flowFail l c m).result.error = some m ∧
    (flowFail l c m).result.logs ≠ [] ∧
    (flowFail l c m).result.logs.getLast? = some (logEntry (str "Error") m) ∧
    (flowFail l c m).result.success = false := by
  refine ⟨rfl, ?_, ?_, rfl⟩
  · simp [flowFail]
  · simp [flowFail]

theorem runCodeGen_calls (cfg : FlowConfig) (svc : Services) (q : Str)
    (iid : Option Str) (logs : List Str) (calls : List CallRecord) (sc : SContent) :
    (runCodeGen cfg svc q iid logs calls sc).calls =
      calls ++ [CallRecord.gen ⟨q, sc, iid⟩] := by
  unfold runCodeGen
  dsimp only
  split
  · rfl
  · split
    · split <;> rfl
    · rfl

theorem runCodeGen_spec (cfg : FlowConfig) (svc : Services) (q : Str)
    (iid : Option Str) (logs : List Str) (calls : List CallRecord) (sc : SContent)
    (h : (runCodeGen cfg svc q iid logs calls sc).result.success = false) :
    ∃ m, (runCodeGen cfg svc q iid logs calls sc).result.error = some m ∧
      (runCodeGen cfg svc q iid logs calls sc).result.logs ≠ [] ∧
      (runCodeGen cfg svc q iid logs calls sc).result.logs.getLast? =
        some (logEntry (str "Error") m) := by
  revert h
  unfold runCodeGen
  dsimp only
  split
  · next e heq =>
      intro _
      exact ⟨e, (flowFail_error _ _ _).1, (flowFail_error _ _ _).2.1, (flowFail_error _ _ _).2.2.1⟩
  · split
    · next st heq => simp [jsStringProp] at heq
    · intro h; simp [flowOk] at h

theorem runGenerateStep_spec (cfg : FlowConfig) (svc : Services) (q tok : Str)
    (iid : Option Str) (logs : List Str) (calls : List CallRecord) (pid : Option Str)
    (h : (runGenerateStep cfg svc q tok iid logs calls pid).result.success = false) :
    ∃ m, (runGenerateStep cfg svc q tok iid logs calls pid).result.error = some m ∧
      (runGenerateStep cfg svc q tok iid logs calls pid).result.logs ≠ [] ∧
      (runGenerateStep cfg svc q tok iid logs calls pid).result.logs.getLast? =
        some (logEntry (str "Error") m) := by
  revert h
  unfold runGenerateStep
  dsimp only
  split
  · next e heq =>
      intro _
      exact ⟨e, (flowFail_error _ _ _).1, (flowFail_error _ _ _).2.1, (flowFail_error _ _ _).2.2.1⟩
  · intro h
    exact runCodeGen_spec _ _ _ _ _ _ _ h

theorem runGenerateStep_calls (cfg : FlowConfig) (svc : Services) (q tok : Str)
    (iid : Option Str) (logs : List Str) (calls : List CallRecord) (pid : Option Str) :
    ∃ tail,
      (runGenerateStep cfg svc q tok iid logs calls pid).calls =
        calls ++ CallRecord.mcp (str "generate_screen_from_text")
          (McpArgs.generateScreen pid q (str "MOBILE") (str "GEMINI_3_FLASH")) tok :: tail ∧
      ∀ r ∈ tail, ∃ pl, r = CallRecord.gen pl := by
  unfold runGenerateStep
  dsimp only
  split
  · exact ⟨[], rfl, by simp⟩
  · next genResult heq =>
      refine ⟨[CallRecord.gen ⟨q, SContent.fromGen genResult.structuredContent, iid⟩], ?_, ?_⟩
      · rw [runCodeGen_calls]
        simp
      · simp

/-- C3: every failure raised inside the orchestrator flow is caught at the
top level, appends a final log entry of source `Error` carrying the
failure message, and yields `success=false` with that message in the
`error` field; the log of a failed flow is never empty. -/
theorem c3_failures_caught_and_logged (cfg : FlowConfig) (svc : Services)
    (q tok : Str) (iid : Option Str)
    (h : (runStitchAgentFlow cfg svc q tok iid).result.success = false) :
    ∃ m, (runStitchAgentFlow cfg svc q tok iid).result.error = some m ∧
      (runStitchAgentFlow cfg svc q tok iid).result.logs ≠ [] ∧
      (runStitchAgentFlow cfg svc q tok iid).result.logs.getLast? =
        some (logEntry (str "Error") m) := by
  revert h
  unfold runStitchAgentFlow
  dsimp only
  split
  · split
    · intro h
      exact runGenerateStep_spec _ _ _ _ _ _ _ _ h
    · split
      · next e heq =>
          intro _
          exact ⟨e, (flowFail_error _ _ _).1, (flowFail_error _ _ _).2.1,
            (flowFail_error _ _ _).2.2.1⟩
      · split
        · intro _
          exact ⟨_, (flowFail_error _ _ _).1, (flowFail_error _ _ _).2.1,
            (flowFail_error _ _ _).2.2.1⟩
        · split
          · intro _
            exact ⟨_, (flowFail_error _ _ _).1, (flowFail_error _ _ _).2.1,
              (flowFail_error _ _ _).2.2.1⟩
          · intro h
            exact runGenerateStep_spec _ _ _ _ _ _ _ _ h
  · intro h
    exact runCodeGen_spec _ _ _ _ _ _ _ h

/-- C2: with no configured default project id and a create-project response
whose text has no `projects/<id>` match, the flow fails with the
project-id resolution error and the generation tool is never invoked. -/
theorem c2_unparsable_project_id_fails_flow (cfg : FlowConfig) (svc : Services)
    (q tok : Str) (iid : Option Str) (r : McpResult) (item : ContentItem)
    (hiid : blankIid iid = true)
    (hdef : jsTruthyStr cfg.defaultProjectId = false)
    (hcreate : svc.mcp (str "create_project")
      (McpArgs.createProject (str "AI Gen - " ++ cfg.timeStr)) tok = Except.ok r)
    (hhead : r.content.head? = some item)
    (hmatch : matchProjectsId item.text = none) :
    (runStitchAgentFlow cfg svc q tok iid).result.success = false ∧
    (runStitchAgentFlow cfg svc q tok iid).result.error =
      some (str "项目创建失败或无法解析 ID") ∧
    ∀ a t, CallRecord.mcp (str "generate_screen_from_text") a t ∉
      (runStitchAgentFlow cfg svc q tok iid).calls := by
  have key : runStitchAgentFlow cfg svc q tok iid =
      flowFail
        ([logEntry (str "System") (str "接收设计任务: " ++ q)] ++
          [logEntry (str "Stitch") (str "未检测到项目ID，正在尝试创建新项目...")])
        [CallRecord.mcp (str "create_project")
          (McpArgs.createProject (str "AI Gen - " ++ cfg.timeStr)) tok]
        (str "项目创建失败或无法解析 ID") := by
    unfold runStitchAgentFlow
    dsimp only
    rw [hiid, hdef]
    simp only [if_true, Bool.false_eq_true, if_false]
    rw [hcreate]
    dsimp only
    rw [hhead]
    dsimp only
    rw [hmatch]
  rw [key]
  refine ⟨rfl, rfl, ?_⟩
  intro a t hmem
  simp only [flowFail, List.mem_singleton] at hmem
  have hname : str "generate_screen_from_text" = str "create_project" := by
    injection hmem
  exact absurd hname (by decide)

theorem jsTrim_nonempty_src {k : Str} (h : (jsTrim k).isEmpty = false) : k.isEmpty = false := by
  cases k with
  | nil => exact absurd h (by decide)
  | cons c t => rfl

theorem jsOrOpt_falsy {a b : Option Str} (h : jsTruthyStr a = false) : jsOrOpt a b = b := by
  cases a with
  | none => rfl
  | some s =>
    simp only [jsTruthyStr, Bool.not_eq_false'] at h
    simp [jsOrOpt, h]

theorem memGenStepToken (cfg : FlowConfig) (svc : Services) (q tok : Str)
    (iid : Option Str) (logs : List Str) (calls : List CallRecord) (pid : Option Str)
    (name : Str) (a : McpArgs) (t : Str)
    (hmem : CallRecord.mcp name a t ∈ (runGenerateStep cfg svc q tok iid logs calls pid).calls) :
    CallRecord.mcp name a t ∈ calls ∨ t = tok := by
  obtain ⟨tail, hc, ht⟩ := runGenerateStep_calls cfg svc q tok iid logs calls pid
  rw [hc] at hmem
  rcases List.mem_append.mp hmem with h | h
  · exact Or.inl h
  · rcases List.mem_cons.mp h with h | h
    · right
      injection h with h1 h2 h3
    · obtain ⟨pl, hpl⟩ := ht _ h
      exact absurd hpl (by simp)

theorem flowMcpToken (cfg : FlowConfig) (svc : Services) (q tok : Str)
    (iid : Option Str) (name : Str) (a : McpArgs) (t : Str)
    (hmem : CallRecord.mcp name a t ∈ (runStitchAgentFlow cfg svc q tok iid).calls) :
    t = tok := by
  revert hmem
  unfold runStitchAgentFlow
  dsimp only
  split
  · split
    · intro hmem
      rcases memGenStepToken _ _ _ _ _ _ _ _ _ _ _ hmem with h | h
      · simp at h
      · exact h
    · split
      · intro hmem
        simp only [flowFail, List.mem_singleton] at hmem
        injection hmem with h1 h2 h3
      · split
        · intro hmem
          simp only [flowFail, List.mem_singleton] at hmem
          injection hmem with h1 h2 h3
        · split
          · intro hmem
            simp only [flowFail, List.mem_singleton] at hmem
            injection hmem with h1 h2 h3
          · intro hmem
            rcases memGenStepToken _ _ _ _ _ _ _ _ _ _ _ hmem with h | h
            · simp only [List.mem_singleton] at h
              injection h with h1 h2 h3
            · exact h
  · intro hmem
    rw [runCodeGen_calls] at hmem
    simp at hmem

/-- C4: the handler resolves the credential as the request-supplied value
when present (and non-blank), else the environment default; when neither
is usable it rejects with the 401 credential-missing error before invoking
the flow; and whatever token the flow receives is the one carried by every
outbound MCP tool call. -/
theorem c4_credential_precedence (envToken : Option Str) (req : GenerateRequest) :
    (∀ c k, req.config = some c → c.deepSeekKey = some k → (jsTrim k).isEmpty = false →
      handleGenerate envToken req =
        HandlerAction.invokeFlow req.prompt k req.interaction_id) ∧
    (∀ d, jsTruthyStr (req.config.bind ReqConfig.deepSeekKey) = false →
      envToken = some d → (jsTrim d).isEmpty = false →
      handleGenerate envToken req =
        HandlerAction.invokeFlow req.prompt d req.interaction_id) ∧
    ((∀ t, jsOrOpt (req.config.bind ReqConfig.deepSeekKey) envToken = some t →
        (jsTrim t).isEmpty = true) →
      handleGenerate envToken req = HandlerAction.reject401 credMissingMsg) ∧
    (∀ cfg svc q tok iid name a t,
      CallRecord.mcp name a t ∈ (runStitchAgentFlow cfg svc q tok iid).calls → t = tok) := by
  refine ⟨?_, ?_, ?_, ?_⟩
  · intro c k hc hk htrim
    have hbind : req.config.bind ReqConfig.deepSeekKey = some k := by
      rw [hc]
      exact hk
    have hkne := jsTrim_nonempty_src htrim
    unfold handleGenerate
    rw [hbind]
    simp [jsOrOpt, hkne, htrim]
  · intro d hfalsy henv htrim
    unfold handleGenerate
    rw [jsOrOpt_falsy hfalsy, henv]
    simp [htrim]
  · intro hall
    unfold handleGenerate
    cases h : jsOrOpt (req.config.bind ReqConfig.deepSeekKey) envToken with
    | none => rfl
    | some t => simp [hall t h]
  · intro cfg svc q tok iid name a t hmem
    exact flowMcpToken cfg svc q tok iid name a t hmem

/-- C5: when a configured default project id is present (truthy), the
create-project tool is never invoked, and any generate call made by the
flow carries exactly that configured id as its project id. -/
theorem c5_default_project_reuse (cfg : FlowConfig) (svc : Services)
    (q tok : Str) (iid : Option Str) (d : Str)
    (hdef : cfg.defaultProjectId = some d) (hd : d.isEmpty = false) :
    (∀ a t, CallRecord.mcp (str "create_project") a t ∉
      (runStitchAgentFlow cfg svc q tok iid).calls) ∧
    (∀ p q2 dt mi t,
      CallRecord.mcp (str "generate_screen_from_text") (McpArgs.generateScreen p q2 dt mi) t ∈
        (runStitchAgentFlow cfg svc q tok iid).calls → p = some d) := by
  have htruthy : jsTruthyStr cfg.defaultProjectId = true := by
    rw [hdef]
    simp [jsTruthyStr, hd]
  unfold runStitchAgentFlow
  dsimp only
  split
  · obtain ⟨tail, hc, ht⟩ := runGenerateStep_calls cfg svc q tok iid
      [logEntry (str "System") (str "接收设计任务: " ++ q)] [] cfg.defaultProjectId
    rw [hc]
    constructor
    · intro a t hmem
      rcases List.mem_append.mp hmem with h | h
      · simp at h
      · rcases List.mem_cons.mp h with h | h
        · have : str "create_project" = str "generate_screen_from_text" := by
            injection h
          exact absurd this (by decide)
        · obtain ⟨pl, hpl⟩ := ht _ h
          exact absurd hpl (by simp)
    · intro p q2 dt mi t hmem
      rcases List.mem_append.mp hmem with h | h
      · simp at h
      · rcases List.mem_cons.mp h with h | h
        · injection h with h1 h2 h3
          injection h2 with g1 g2 g3 g4
          rw [g1, hdef]
        · obtain ⟨pl, hpl⟩ := ht _ h
          exact absurd hpl (by simp)
  · rw [runCodeGen_calls]
    constructor
    · intro a t hmem
      simp at hmem
    · intro p q2 dt mi t hmem
      simp at hmem

/-- C7 (amended): with a non-blank continuation token (non-empty after
trimming), the flow makes no MCP tool call at all — neither project
resolution nor screen generation — and proceeds directly to the code
retrieval call, passing the token as `previous_interaction_id`. -/
theorem c7_nonblank_token_skips_generation (cfg : FlowConfig) (svc : Services)
    (q tok s : Str) (hs : (jsTrim s).isEmpty = false) :
    (runStitchAgentFlow cfg svc q tok (some s)).calls =
      [CallRecord.gen ⟨q, SContent.emptyObj, some s⟩] ∧
    ∀ n a t, CallRecord.mcp n a t ∉ (runStitchAgentFlow cfg svc q tok (some s)).calls := by
  have hblank : blankIid (some s) = false := by
    simp [blankIid, hs, jsTrim_nonempty_src hs]
  have key : (runStitchAgentFlow cfg svc q tok (some s)).calls =
      [CallRecord.gen ⟨q, SContent.emptyObj, some s⟩] := by
    unfold runStitchAgentFlow
    rw [hblank]
    simp only [Bool.false_eq_true, if_false]
    rw [runCodeGen_calls]
    rfl
  refine ⟨key, ?_⟩
  intro n a t hmem
  rw [key] at hmem
  simp at hmem

/-- C7 (counterexample to the claim as stated): the continuation token
`" "` is a non-empty string, yet the flow does invoke the
`generate_screen_from_text` tool, because the source treats a
whitespace-only token (`trim() === ''`) as absent. -/
theorem c7_whitespace_token_counterexample :
    str " " ≠ [] ∧
    CallRecord.mcp (str "generate_screen_from_text")
        (McpArgs.generateScreen (some (str "p1")) (str "q") (str "MOBILE") (str "GEMINI_3_FLASH"))
        (str "tok") ∈
      (runStitchAgentFlow cfgC7 svcC7 (str "q") (str "tok") (some (str " "))).calls := by
  refine ⟨by decide, ?_⟩
  decide

/-- C1 (code bug): with every outbound call succeeding — the MCP stub
returns a valid result and the code-generation service returns a completed
response carrying HTML — the flow still returns `success=true` with an
empty `code`, because the raw response text is never JSON-parsed (the
parse is commented out in the source), so `genCodeResult["status"]` is
`undefined` and the extraction step is unreachable. -/
theorem c1_success_yields_empty_code :
    (runStitchAgentFlow cfgC1 svcC1 (str "a minimal todo list") (str "tok-1") none).result.success = true ∧
    (runStitchAgentFlow cfgC1 svcC1 (str "a minimal todo list") (str "tok-1") none).result.code = some [] := by
  exact ⟨rfl, rfl⟩

/-- C6 (code bug): the detail/code response carries no `<html` root, so
the claim expects the non-empty placeholder embedding the resolved
project id `p-6`; the flow instead returns an empty `code` (which in
particular does not contain `p-6`), because the response text is never
parsed and the placeholder branch is unreachable. -/
theorem c6_placeholder_branch_unreachable :
    (runStitchAgentFlow cfgC6 svcC6 (str "a form") (str "tok-6") none).result.success = true ∧
    (runStitchAgentFlow cfgC6 svcC6 (str "a form") (str "tok-6") none).result.code = some [] ∧
    containsSub (str "p-6") [] = false := by
  exact ⟨rfl, rfl, rfl⟩

/-- C9: the code-fragment extraction step is a pure function of its
inputs: two applications to the same detail text and the same resolved
project identifier yield the same output. -/
theorem c9_extract_deterministic (htmlCode : Option Str) (pid : Option Str) (r1 r2 : Str)
    (h1 : r1 = extractCodeFragment htmlCode pid)
    (h2 : r2 = extractCodeFragment htmlCode pid) : r1 = r2 := by
  rw [h1, h2]

/-- C9 witness: two concrete applications of the extractor to the same
non-HTML input agree. -/
theorem c9_extract_deterministic_witness :
    extractCodeFragment (some (str "plain")) (some (str "p")) =
      extractCodeFragment (some (str "plain")) (some (str "p")) :=
  c9_extract_deterministic (some (str "plain")) (some (str "p")) _ _ rfl rfl

/-- C8: `callStitchToolDirect` issues exactly one outbound JSON-RPC
request per invocation (no retry), and classifies failures: HTTP 401 →
authentication error; any other non-2xx → HTTP error carrying the
upstream body; unparsable body on a 2xx → JSON parse error; a top-level
`error` object → MCP logic error with the upstream message; a result
flagged `isError` → tool error with the first content text. -/
theorem c8_invoker_single_attempt_classification (toolName : Str) (args : McpArgs)
    (token : Str) (reqId : Nat) (outcome : TransportOutcome) :
    (callStitchToolDirect toolName args token reqId outcome).requests =
      [⟨reqId, str "tools/call", toolName, args, token⟩] ∧
    (∀ body parsed, outcome = TransportOutcome.response 401 body parsed →
      (callStitchToolDirect toolName args token reqId outcome).result =
        Except.error (str "身份验证失败 (401): 请检查您的 Stitch Access Token 是否正确或已过期。原文: " ++ body)) ∧
    (∀ st body parsed, outcome = TransportOutcome.response st body parsed →
      responseOk st = false → st ≠ 401 →
      (callStitchToolDirect toolName args token reqId outcome).result =
        Except.error (str "HTTP Error " ++ natStr st ++ str ": " ++ body)) ∧
    (∀ st body, outcome = TransportOutcome.response st body none → responseOk st = true →
      (callStitchToolDirect toolName args token reqId outcome).result =
        Except.error (str "无法解析响应 JSON: " ++ body)) ∧
    (∀ st body env e, outcome = TransportOutcome.response st body (some env) →
      responseOk st = true → env.error = some e →
      (callStitchToolDirect toolName args token reqId outcome).result =
        Except.error (str "MCP 逻辑错误: " ++ jsOrStr e.message e.stringified)) ∧
    (∀ st body env r, outcome = TransportOutcome.response st body (some env) →
      responseOk st = true → env.error = none → env.result = some r → r.isError = true →
      (callStitchToolDirect toolName args token reqId outcome).result =
        Except.error (str "工具执行返回错误: " ++
          jsOrStr (Option.map ContentItem.text r.content.head?) (str "未知错误"))) := by
  refine ⟨?_, ?_, ?_, ?_, ?_, ?_⟩
  · cases outcome with
    | netError m => rfl
    | response st body parsed =>
      unfold callStitchToolDirect
      dsimp only
      repeat' split
      all_goals rfl
  · intro body parsed h
    subst h
    rfl
  · intro st body parsed h hok hne
    subst h
    unfold callStitchToolDirect
    dsimp only
    simp [hok, hne]
  · intro st body h hok
    subst h
    unfold callStitchToolDirect
    dsimp only
    simp [hok]
  · intro st body env e h hok herr
    subst h
    unfold callStitchToolDirect
    dsimp only
    simp [hok, herr]
  · intro st body env r h hok herr hres hisErr
    subst h
    unfold callStitchToolDirect
    dsimp only
    simp [hok, herr, hres, hisErr]

/-- C2 witness: a concrete run with no default project id and an
unparsable create-project response fails with the project-id error and
never calls the generation tool. -/
theorem c2_unparsable_project_id_fails_flow_witness :
    (runStitchAgentFlow cfgC2 svcC2 (str "todo app") (str "tok") none).result.success = false ∧
    (runStitchAgentFlow cfgC2 svcC2 (str "todo app") (str "tok") none).result.error =
      some (str "项目创建失败或无法解析 ID") ∧
    ∀ a t, CallRecord.mcp (str "generate_screen_from_text") a t ∉
      (runStitchAgentFlow cfgC2 svcC2 (str "todo app") (str "tok") none).calls :=
  c2_unparsable_project_id_fails_flow cfgC2 svcC2 (str "todo app") (str "tok") none
    ⟨false, [⟨str "created without identifier"⟩], str "sc"⟩
    ⟨str "created without identifier"⟩ rfl rfl rfl rfl (by decide)

/-- C3 witness: a concrete failing run (unreachable tool endpoint) has its
failure caught, logged as a final Error entry and surfaced in `error`. -/
theorem c3_failures_caught_and_logged_witness :
    (runStitchAgentFlow cfgC3 svcC3 (str "q") (str "t") none).result.success = false ∧
    ∃ m, (runStitchAgentFlow cfgC3 svcC3 (str "q") (str "t") none).result.error = some m ∧
      (runStitchAgentFlow cfgC3 svcC3 (str "q") (str "t") none).result.logs ≠ [] ∧
      (runStitchAgentFlow cfgC3 svcC3 (str "q") (str "t") none).result.logs.getLast? =
        some (logEntry (str "Error") m) :=
  ⟨rfl, c3_failures_caught_and_logged cfgC3 svcC3 (str "q") (str "t") none rfl⟩

/-- C4 witness: concrete resolutions — request key wins over the
environment default; the default is used when the request has none;
neither available rejects with 401; and a concrete flow run carries the
handler-resolved token on its MCP call. -/
theorem c4_credential_precedence_witness :
    handleGenerate (some (str "env-token")) reqWithKey =
      HandlerAction.invokeFlow (some (str "hi")) (str "req-token") none ∧
    handleGenerate (some (str "env-token")) reqNoKey =
      HandlerAction.invokeFlow (some (str "hi")) (str "env-token") none ∧
    handleGenerate none reqNoKey = HandlerAction.reject401 credMissingMsg ∧
    str "tok" = str "tok" :=
  ⟨(c4_credential_precedence (some (str "env-token")) reqWithKey).1
      ⟨some (str "req-token")⟩ (str "req-token") rfl rfl (by decide),
   (c4_credential_precedence (some (str "env-token")) reqNoKey).2.1
      (str "env-token") rfl rfl (by decide),
   (c4_credential_precedence none reqNoKey).2.2.1
      (fun t h => Option.noConfusion h),
   (c4_credential_precedence none reqNoKey).2.2.2 cfgC7 svcC7 (str "q") (str "tok") none
      (str "generate_screen_from_text")
      (McpArgs.generateScreen (some (str "p1")) (str "q") (str "MOBILE") (str "GEMINI_3_FLASH"))
      (str "tok") (by decide)⟩

/-- C5 witness: a concrete run with a configured default project id never
calls create-project, and its generate call carries exactly that id. -/
theorem c5_default_project_reuse_witness :
    (∀ a t, CallRecord.mcp (str "create_project") a t ∉
      (runStitchAgentFlow cfgC5 svcC5 (str "q") (str "tk") none).calls) ∧
    (∀ p q2 dt mi t,
      CallRecord.mcp (str "generate_screen_from_text") (McpArgs.generateScreen p q2 dt mi) t ∈
        (runStitchAgentFlow cfgC5 svcC5 (str "q") (str "tk") none).calls →
      p = some (str "proj-77")) :=
  c5_default_project_reuse cfgC5 svcC5 (str "q") (str "tk") none (str "proj-77") rfl rfl

/-- C7 witness: a concrete run carrying the non-blank continuation token
`i-123` makes no MCP call and goes straight to code retrieval with that
token. -/
theorem c7_nonblank_token_skips_generation_witness :
    (runStitchAgentFlow cfgC7 svcC7 (str "q") (str "tok") (some (str "i-123"))).calls =
      [CallRecord.gen ⟨str "q", SContent.emptyObj, some (str "i-123")⟩] ∧
    ∀ n a t, CallRecord.mcp n a t ∉
      (runStitchAgentFlow cfgC7 svcC7 (str "q") (str "tok") (some (str "i-123"))).calls :=
  c7_nonblank_token_skips_generation cfgC7 svcC7 (str "q") (str "tok") (str "i-123") (by decide)

/-- C8 witness: concrete classifications — 401 body, other non-2xx,
unparsable JSON, top-level error object, `isError` result — and the single
request envelope of an invocation. -/
theorem c8_invoker_single_attempt_classification_witness :
    (callStitchToolDirect (str "create_project") cpArgs (str "tk") 1 oc401).result =
      Except.error (str "身份验证失败 (401): 请检查您的 Stitch Access Token 是否正确或已过期。原文: " ++ str "denied") ∧
    (callStitchToolDirect (str "create_project") cpArgs (str "tk") 1 oc500).result =
      Except.error (str "HTTP Error " ++ natStr 500 ++ str ": " ++ str "oops") ∧
    (callStitchToolDirect (str "create_project") cpArgs (str "tk") 1 ocBad).result =
      Except.error (str "无法解析响应 JSON: " ++ str "not json") ∧
    (callStitchToolDirect (str "create_project") cpArgs (str "tk") 1 ocErr).result =
      Except.error (str "MCP 逻辑错误: " ++ jsOrStr (some (str "bad creds")) (str "sjson")) ∧
    (callStitchToolDirect (str "create_project") cpArgs (str "tk") 1 ocTool).result =
      Except.error (str "工具执行返回错误: " ++
        jsOrStr (Option.map ContentItem.text ([⟨str "tool failed"⟩] : List ContentItem).head?)
          (str "未知错误")) ∧
    (callStitchToolDirect (str "create_project") cpArgs (str "tk") 1 oc401).requests =
      [⟨1, str "tools/call", str "create_project", cpArgs, str "tk"⟩] :=
  ⟨(c8_invoker_single_attempt_classification (str "create_project") cpArgs (str "tk") 1 oc401).2.1
      (str "denied") none rfl,
   (c8_invoker_single_attempt_classification (str "create_project") cpArgs (str "tk") 1 oc500).2.2.1
      500 (str "oops") none rfl rfl (by decide),
   (c8_invoker_single_attempt_classification (str "create_project") cpArgs (str "tk") 1 ocBad).2.2.2.1
      200 (str "not json") rfl rfl,
   (c8_invoker_single_attempt_classification (str "create_project") cpArgs (str "tk") 1 ocErr).2.2.2.2.1
      200 (str "b") ⟨some ⟨some (str "bad creds"), str "sjson"⟩, none⟩
      ⟨some (str "bad creds"), str "sjson"⟩ rfl rfl rfl,
   (c8_invoker_single_attempt_classification (str "create_project") cpArgs (str "tk") 1 ocTool).2.2.2.2.2
      200 (str "b2") ⟨none, some ⟨true, [⟨str "tool failed"⟩], str "sc"⟩⟩
      ⟨true, [⟨str "tool failed"⟩], str "sc"⟩ rfl rfl rfl rfl rfl,
   (c8_invoker_single_attempt_classification (str "create_project") cpArgs (str "tk") 1 oc401).1⟩
